import Mathlib

/-!
Shallow embedding of the provisioning core of the grafana_manager_telegram
repository (src/app/services/grafana.py and src/app/bot/handlers/projects.py).

The remote Grafana platform is modelled as an environment mapping each HTTP
request to either an HTTP response (status, parsed body, raw text) or a
transport failure (httpx.RequestError).  Every service method is translated
into a pure function returning its Python outcome (normal value or raised
exception) together with the ordered trace of remote requests it issued.
Python exception messages built with f-strings are represented structurally:
each GMsg constructor corresponds to exactly one raise site in the source and
carries the data interpolated there.
-/

/-- An organization as parsed from a Grafana response body:
a dict with integer id and name. -/
structure Org where
  id : Int
  name : String
deriving DecidableEq, Repr

/-- Parsed JSON body of a remote response, restricted to the shapes the
service actually reads. -/
inductive Body where
  | empty : Body
  | orgId : Int → Body
  | org : Org → Body
  | orgs : List Org → Body
  | saId : Int → Body
  | tokenKey : String → Body
deriving DecidableEq, Repr

/-- An HTTP response: status code, parsed body, and raw text (used in error
messages). -/
structure HResp where
  status : Nat
  body : Body
  text : String
deriving DecidableEq, Repr

/-- A datasource payload as posted to /api/datasources. -/
structure Datasource where
  name : String
  type : String
  url : String
  access : String
  isDefault : Bool := false
  jsonData : List (String × String) := []
  secureJsonData : List (String × String) := []
deriving DecidableEq, Repr

/-- The service-account creation payload posted to /api/serviceaccounts. -/
structure SAPayload where
  name : String
  role : String
  isDisabled : Bool
deriving DecidableEq, Repr

/-- The Alertmanager configuration payload of setup_alerting: one route and
one Telegram receiver. -/
structure AMConfig where
  receiver : String
  group_by : List String
  group_wait : String
  group_interval : String
  repeat_interval : String
  contactName : String
  contactType : String
  bottoken : String
  chatid : String
deriving DecidableEq, Repr

/-- A remote HTTP request issued by the service.  The org-id component
records the X-Grafana-Org-Id scope header where the source passes org_id to
its client factory. -/
inductive Req where
  | getOrgByName : String → Req
  | postOrg : String → Req
  | getOrgs : Req
  | deleteOrg : Int → Req
  | postDatasource : Int → Datasource → Req
  | postFolder : Int → String → String → Req
  | postServiceAccount : Int → SAPayload → Req
  | postSAToken : Int → Int → Req
  | deleteServiceAccount : Int → Int → Req
  | postAlertmanagerConfig : Int → AMConfig → Req
deriving DecidableEq, Repr

/-- Result of one remote call: an HTTP response, or a transport-level
failure (httpx.RequestError: DNS, connection, timeout). -/
inductive RemoteResult where
  | resp : HResp → RemoteResult
  | netfail : RemoteResult
deriving DecidableEq, Repr

/-- The remote platform, as a deterministic oracle from requests to
results. -/
def Env : Type := Req → RemoteResult

/-- Structural representation of every GrafanaError message raised by the
source; each constructor is one raise site with the data its f-string
interpolates. -/
inductive GMsg where
  | alreadyExists : String → GMsg
  | createOrgFailed : String → GMsg
  | lookupOrgFailed : String → GMsg
  | listOrgsFailed : String → GMsg
  | deleteOrgFailed : Int → String → GMsg
  | addDatasourceFailed : String → String → GMsg
  | createFolderFailed : String → GMsg
  | createSAFailed : String → GMsg
  | createSATokenFailed : String → GMsg
  | alertmanagerConfigFailed : String → GMsg
  | connectivity : String → GMsg
deriving DecidableEq, Repr

/-- A Python exception escaping one of the embedded functions:
a typed GrafanaError, an uncaught httpx.RequestError, an AttributeError
from accessing a missing attribute, or a KeyError/JSON shape error when a
response body lacks the field the code reads. -/
inductive PyErr where
  | grafana : GMsg → PyErr
  | transport : PyErr
  | attrError : String → PyErr
  | keyError : PyErr
deriving DecidableEq, Repr

/-- The GrafanaService construction data (url, user, password); only
base_url is observable in behaviour, via the connectivity error message. -/
structure GrafanaService where
  base_url : String
  user : String
  password : String
deriving DecidableEq, Repr

/-- Decidable equality for Except, needed so closed runs can be settled by
decide. -/
instance {ε α : Type} [DecidableEq ε] [DecidableEq α] :
    DecidableEq (Except ε α) := fun x y =>
  match x, y with
  | Except.ok a, Except.ok b =>
      match decEq a b with
      | isTrue h => isTrue (h ▸ rfl)
      | isFalse h => isFalse fun hc => h (Except.ok.inj hc)
  | Except.error a, Except.error b =>
      match decEq a b with
      | isTrue h => isTrue (h ▸ rfl)
      | isFalse h => isFalse fun hc => h (Except.error.inj hc)
  | Except.ok _, Except.error _ => isFalse fun hc => Except.noConfusion hc
  | Except.error _, Except.ok _ => isFalse fun hc => Except.noConfusion hc

/-- Outcome of running one service method: the Python result (value or
raised exception) paired with the ordered trace of remote requests. -/
def Run (α : Type) : Type := Except PyErr α × List Req

/-- GrafanaService.create_organization: look the name up; a 200 lookup
means the org already exists (GrafanaError, no create call); any other
lookup status falls through to POST /api/orgs; non-(200|201) create status
is a GrafanaError; otherwise the body orgId is returned.  RequestError
anywhere becomes the stable connectivity GrafanaError. -/
def create_organization (env : Env) (svc : GrafanaService) (name : String) :
    Run Int :=
  match env (Req.getOrgByName name) with
  | RemoteResult.netfail =>
      (Except.error (PyErr.grafana (GMsg.connectivity svc.base_url)),
       [Req.getOrgByName name])
  | RemoteResult.resp check =>
      if check.status = 200 then
        (Except.error (PyErr.grafana (GMsg.alreadyExists name)),
         [Req.getOrgByName name])
      else
        match env (Req.postOrg name) with
        | RemoteResult.netfail =>
            (Except.error (PyErr.grafana (GMsg.connectivity svc.base_url)),
             [Req.getOrgByName name, Req.postOrg name])
        | RemoteResult.resp r =>
            if r.status = 200 ∨ r.status = 201 then
              match r.body with
              | Body.orgId i =>
                  (Except.ok i, [Req.getOrgByName name, Req.postOrg name])
              | _ =>
                  (Except.error PyErr.keyError,
                   [Req.getOrgByName name, Req.postOrg name])
            else
              (Except.error (PyErr.grafana (GMsg.createOrgFailed r.text)),
               [Req.getOrgByName name, Req.postOrg name])

/-- GrafanaService.get_organization_by_name: 404 is None, non-200 is a
GrafanaError, 200 returns the parsed org. -/
def get_organization_by_name (env : Env) (svc : GrafanaService)
    (name : String) : Run (Option Org) :=
  match env (Req.getOrgByName name) with
  | RemoteResult.netfail =>
      (Except.error (PyErr.grafana (GMsg.connectivity svc.base_url)),
       [Req.getOrgByName name])
  | RemoteResult.resp r =>
      if r.status = 404 then (Except.ok none, [Req.getOrgByName name])
      else if r.status ≠ 200 then
        (Except.error (PyErr.grafana (GMsg.lookupOrgFailed r.text)),
         [Req.getOrgByName name])
      else
        match r.body with
        | Body.org o => (Except.ok (some o), [Req.getOrgByName name])
        | _ => (Except.error PyErr.keyError, [Req.getOrgByName name])

/-- GrafanaService.list_organizations: GET /api/orgs, then filter out the
built-in "Main Org." from the parsed list. -/
def list_organizations (env : Env) (svc : GrafanaService) :
    Run (List Org) :=
  match env Req.getOrgs with
  | RemoteResult.netfail =>
      (Except.error (PyErr.grafana (GMsg.connectivity svc.base_url)),
       [Req.getOrgs])
  | RemoteResult.resp r =>
      if r.status ≠ 200 then
        (Except.error (PyErr.grafana (GMsg.listOrgsFailed r.text)),
         [Req.getOrgs])
      else
        match r.body with
        | Body.orgs os =>
            (Except.ok (os.filter fun o => o.name ≠ "Main Org."),
             [Req.getOrgs])
        | _ => (Except.error PyErr.keyError, [Req.getOrgs])

/-- GrafanaService.delete_organization: DELETE /api/orgs/id; both 200 and
404 are success, anything else raises GrafanaError. -/
def delete_organization (env : Env) (svc : GrafanaService) (orgId : Int) :
    Run Unit :=
  match env (Req.deleteOrg orgId) with
  | RemoteResult.netfail =>
      (Except.error (PyErr.grafana (GMsg.connectivity svc.base_url)),
       [Req.deleteOrg orgId])
  | RemoteResult.resp r =>
      if r.status = 200 ∨ r.status = 404 then
        (Except.ok (), [Req.deleteOrg orgId])
      else
        (Except.error (PyErr.grafana (GMsg.deleteOrgFailed orgId r.text)),
         [Req.deleteOrg orgId])

/-- The Prometheus datasource payload of add_datasources (marked default). -/
def prometheusDS : Datasource :=
  { name := "Prometheus", type := "prometheus",
    url := "http://prometheus:9090", access := "proxy", isDefault := true,
    jsonData := [("timeInterval", "15s")] }

/-- The Loki datasource payload of add_datasources, carrying the per-project
X-Scope-OrgID header value as a secure field. -/
def lokiDS (projectName : String) : Datasource :=
  { name := "Loki", type := "loki", url := "http://loki:3100",
    access := "proxy",
    jsonData := [("httpHeaderName1", "X-Scope-OrgID")],
    secureJsonData := [("httpHeaderValue1", projectName)] }

/-- The Tempo datasource payload of add_datasources. -/
def tempoDS : Datasource :=
  { name := "Tempo", type := "tempo", url := "http://tempo:3200",
    access := "proxy" }

/-- The fixed datasource list of add_datasources, in source order
Prometheus, Loki, Tempo. -/
def datasources (projectName : String) : List Datasource :=
  [prometheusDS, lokiDS projectName, tempoDS]

/-- The for-loop body of add_datasources: POST each datasource in turn;
200, 201 and 409 (name already exists in the org) continue, any other
status raises GrafanaError naming the datasource; a RequestError escapes
to the surrounding try as a raw transport failure. -/
def add_ds_loop (env : Env) (orgId : Int) :
    List Datasource → Run Unit
  | [] => (Except.ok (), [])
  | ds :: rest =>
      match env (Req.postDatasource orgId ds) with
      | RemoteResult.netfail =>
          (Except.error PyErr.transport, [Req.postDatasource orgId ds])
      | RemoteResult.resp r =>
          if r.status = 200 ∨ r.status = 201 ∨ r.status = 409 then
            let next := add_ds_loop env orgId rest
            (next.1, Req.postDatasource orgId ds :: next.2)
          else
            (Except.error
               (PyErr.grafana (GMsg.addDatasourceFailed ds.name r.text)),
             [Req.postDatasource orgId ds])

/-- GrafanaService.add_datasources: run the loop under the org-scoped
client; the surrounding try turns a RequestError into the stable
connectivity GrafanaError. -/
def add_datasources (env : Env) (svc : GrafanaService) (orgId : Int)
    (projectName : String) : Run Unit :=
  let run := add_ds_loop env orgId (datasources projectName)
  match run.1 with
  | Except.error PyErr.transport =>
      (Except.error (PyErr.grafana (GMsg.connectivity svc.base_url)), run.2)
  | r => (r, run.2)

/-- Python str.lower on a code-point sequence (per-character lowering,
faithful on the ASCII names this service handles). -/
def pyLower (s : List Char) : List Char := s.map Char.toLower

/-- Python str.replace with a one-character pattern and replacement:
replace every occurrence. -/
def pyReplaceChar (a b : Char) (s : List Char) : List Char :=
  s.map fun c => if c = a then b else c

/-- The folder uid derivation of create_folder:
project_name.lower().replace(" ", "-")[:40]. -/
def folderUid (s : List Char) : List Char :=
  (pyReplaceChar ' ' '-' (pyLower s)).take 40

/-- GrafanaService.create_folder: derive the uid from the project name and
POST /api/folders under the org scope; 200, 201 and 412 (uid already
exists) succeed, anything else raises GrafanaError. -/
def create_folder (env : Env) (svc : GrafanaService) (orgId : Int)
    (projectName : String) : Run Unit :=
  let uid := String.mk (folderUid projectName.data)
  match env (Req.postFolder orgId projectName uid) with
  | RemoteResult.netfail =>
      (Except.error (PyErr.grafana (GMsg.connectivity svc.base_url)),
       [Req.postFolder orgId projectName uid])
  | RemoteResult.resp r =>
      if r.status = 200 ∨ r.status = 201 ∨ r.status = 412 then
        (Except.ok (), [Req.postFolder orgId projectName uid])
      else
        (Except.error (PyErr.grafana (GMsg.createFolderFailed r.text)),
         [Req.postFolder orgId projectName uid])

/-- The service-account payload of _create_temp_token. -/
def saPayload : SAPayload :=
  { name := "grafana-bot-setup", role := "Admin", isDisabled := false }

/-- GrafanaService._create_temp_token: create an Admin service account in
the org, then mint a token for it.  Unlike the public operations there is
no try/except here: a RequestError escapes untyped (modelled as
PyErr.transport), never as the connectivity GrafanaError. -/
def create_temp_token (env : Env) (svc : GrafanaService) (orgId : Int) :
    Run (Int × String) :=
  match env (Req.postServiceAccount orgId saPayload) with
  | RemoteResult.netfail =>
      (Except.error PyErr.transport, [Req.postServiceAccount orgId saPayload])
  | RemoteResult.resp sa =>
      if sa.status = 200 ∨ sa.status = 201 then
        match sa.body with
        | Body.saId i =>
            match env (Req.postSAToken orgId i) with
            | RemoteResult.netfail =>
                (Except.error PyErr.transport,
                 [Req.postServiceAccount orgId saPayload,
                  Req.postSAToken orgId i])
            | RemoteResult.resp tok =>
                if tok.status = 200 ∨ tok.status = 201 then
                  match tok.body with
                  | Body.tokenKey k =>
                      (Except.ok (i, k),
                       [Req.postServiceAccount orgId saPayload,
                        Req.postSAToken orgId i])
                  | _ =>
                      (Except.error PyErr.keyError,
                       [Req.postServiceAccount orgId saPayload,
                        Req.postSAToken orgId i])
                else
                  (Except.error
                     (PyErr.grafana (GMsg.createSATokenFailed tok.text)),
                   [Req.postServiceAccount orgId saPayload,
                    Req.postSAToken orgId i])
        | _ =>
            (Except.error PyErr.keyError,
             [Req.postServiceAccount orgId saPayload])
      else
        (Except.error (PyErr.grafana (GMsg.createSAFailed sa.text)),
         [Req.postServiceAccount orgId saPayload])

/-- GrafanaService._delete_service_account: one DELETE with no status check
at all (any HTTP status is success) and no try/except (a RequestError
escapes untyped). -/
def delete_service_account (env : Env) (svc : GrafanaService) (orgId : Int)
    (saId : Int) : Run Unit :=
  match env (Req.deleteServiceAccount orgId saId) with
  | RemoteResult.netfail =>
      (Except.error PyErr.transport, [Req.deleteServiceAccount orgId saId])
  | RemoteResult.resp _ =>
      (Except.ok (), [Req.deleteServiceAccount orgId saId])

/-- The Alertmanager payload built by setup_alerting from the bot token and
chat id: fixed Telegram route and receiver. -/
def amConfig (botToken chatId : String) : AMConfig :=
  { receiver := "Telegram", group_by := ["alertname"], group_wait := "30s",
    group_interval := "5m", repeat_interval := "4h",
    contactName := "Telegram", contactType := "telegram",
    bottoken := botToken, chatid := chatId }

/-- The single remote request setup_alerting issues: the Alertmanager
configuration POST under operator basic auth with the org-scope header. -/
def amReq (orgId : Int) (botToken chatId : String) : Req :=
  Req.postAlertmanagerConfig orgId (amConfig botToken chatId)

/-- GrafanaService.setup_alerting: POST the Alertmanager configuration for
the org under operator credentials; 200, 201 and 202 succeed, any other
status raises GrafanaError; RequestError becomes the connectivity
GrafanaError.  No service account and no token are involved:
_create_temp_token and _delete_service_account are never called here. -/
def setup_alerting (env : Env) (svc : GrafanaService) (orgId : Int)
    (botToken chatId : String) : Run Unit :=
  match env (amReq orgId botToken chatId) with
  | RemoteResult.netfail =>
      (Except.error (PyErr.grafana (GMsg.connectivity svc.base_url)),
       [amReq orgId botToken chatId])
  | RemoteResult.resp r =>
      if r.status = 200 ∨ r.status = 201 ∨ r.status = 202 then
        (Except.ok (), [amReq orgId botToken chatId])
      else
        (Except.error
           (PyErr.grafana (GMsg.alertmanagerConfigFailed r.text)),
         [amReq orgId botToken chatId])

/-- The last completed stage of the createProject workflow, per the state
machine Start, OrgCreated, DatasourcesProvisioned, FolderReady,
AlertingConfigured. -/
inductive Stage where
  | Start : Stage
  | OrgCreated : Stage
  | DatasourcesProvisioned : Stage
  | FolderReady : Stage
  | AlertingConfigured : Stage
deriving DecidableEq, Repr

/-- The try-block of cmd_create_project in
src/app/bot/handlers/projects.py, with the last completed stage recorded.
After create_folder succeeds the handler calls
grafana.create_telegram_contact_point, an attribute GrafanaService does
not define (the service only defines setup_alerting, which the handler
never calls), so Python raises AttributeError there before any further
remote call; the subsequent grafana.set_notification_policy call is
unreachable. -/
def cmd_create_project (env : Env) (svc : GrafanaService)
    (projectName chatId botToken : String) :
    Except PyErr Int × List Req × Stage :=
  let org := create_organization env svc projectName
  match org.1 with
  | Except.error e => (Except.error e, org.2, Stage.Start)
  | Except.ok orgId =>
      let ds := add_datasources env svc orgId projectName
      match ds.1 with
      | Except.error e => (Except.error e, org.2 ++ ds.2, Stage.OrgCreated)
      | Except.ok _ =>
          let fl := create_folder env svc orgId projectName
          match fl.1 with
          | Except.error e =>
              (Except.error e, org.2 ++ ds.2 ++ fl.2,
               Stage.DatasourcesProvisioned)
          | Except.ok _ =>
              (Except.error (PyErr.attrError "create_telegram_contact_point"),
               org.2 ++ ds.2 ++ fl.2, Stage.FolderReady)

/-- Whether a request deletes a service account. -/
def Req.isDeleteSA : Req → Bool
  | Req.deleteServiceAccount _ _ => true
  | _ => false

/-- Whether a request creates a service account. -/
def Req.isPostSA : Req → Bool
  | Req.postServiceAccount _ _ => true
  | _ => false

/-- Whether a request deletes an organization (the only rollback-shaped
call the service has besides service-account deletion). -/
def Req.isDeleteOrg : Req → Bool
  | Req.deleteOrg _ => true
  | _ => false

/-- A concrete service construction used by closed witnesses. -/
def svcA : GrafanaService :=
  { base_url := "http://localhost:3000", user := "admin", password := "pw" }

/-- A concrete remote in which every call succeeds: name lookups miss
(404), creation calls return 200/201 with well-formed bodies. -/
def envAllOk : Env := fun r =>
  match r with
  | Req.getOrgByName _ => RemoteResult.resp ⟨404, Body.empty, ""⟩
  | Req.postOrg _ => RemoteResult.resp ⟨200, Body.orgId 1, ""⟩
  | Req.getOrgs => RemoteResult.resp ⟨200, Body.orgs [], ""⟩
  | Req.deleteOrg _ => RemoteResult.resp ⟨200, Body.empty, ""⟩
  | Req.postDatasource _ _ => RemoteResult.resp ⟨200, Body.empty, ""⟩
  | Req.postFolder _ _ _ => RemoteResult.resp ⟨200, Body.empty, ""⟩
  | Req.postServiceAccount _ _ => RemoteResult.resp ⟨201, Body.saId 9, ""⟩
  | Req.postSAToken _ _ => RemoteResult.resp ⟨200, Body.tokenKey "k", ""⟩
  | Req.deleteServiceAccount _ _ => RemoteResult.resp ⟨200, Body.empty, ""⟩
  | Req.postAlertmanagerConfig _ _ => RemoteResult.resp ⟨202, Body.empty, ""⟩

/-- A concrete remote in which the Alertmanager-configuration call fails
with status 500 and body text "boom". -/
def envAMFail : Env := fun r =>
  match r with
  | Req.postAlertmanagerConfig _ _ =>
      RemoteResult.resp ⟨500, Body.empty, "boom"⟩
  | _ => RemoteResult.netfail

/-- A concrete remote that is entirely unreachable. -/
def envNetfail : Env := fun _ => RemoteResult.netfail

/-- A concrete remote in which everything up to the folder step succeeds
and the folder-creation call fails with 500 "boom". -/
def envFolderFail : Env := fun r =>
  match r with
  | Req.getOrgByName _ => RemoteResult.resp ⟨404, Body.empty, ""⟩
  | Req.postOrg _ => RemoteResult.resp ⟨200, Body.orgId 5, ""⟩
  | Req.postDatasource _ _ => RemoteResult.resp ⟨200, Body.empty, ""⟩
  | Req.postFolder _ _ _ => RemoteResult.resp ⟨500, Body.empty, "boom"⟩
  | _ => RemoteResult.netfail

/-- A concrete remote in which the Loki datasource already exists (409)
and the other datasource creations succeed. -/
def envDsMixed : Env := fun r =>
  match r with
  | Req.postDatasource _ ds =>
      if ds.name = "Loki" then RemoteResult.resp ⟨409, Body.empty, ""⟩
      else RemoteResult.resp ⟨200, Body.empty, ""⟩
  | _ => RemoteResult.netfail

/-- A concrete remote in which the organization name resolves (lookup
returns 200). -/
def envOrgExists : Env := fun r =>
  match r with
  | Req.getOrgByName _ =>
      RemoteResult.resp ⟨200, Body.org ⟨1, "Acme"⟩, ""⟩
  | _ => RemoteResult.netfail

/-- A concrete remote whose organization listing contains the built-in
default organization and one project organization. -/
def envList : Env := fun r =>
  match r with
  | Req.getOrgs =>
      RemoteResult.resp ⟨200, Body.orgs [⟨1, "Main Org."⟩, ⟨2, "Acme"⟩], ""⟩
  | _ => RemoteResult.netfail

/-- A concrete remote in which organization deletion returns 404. -/
def envDel404 : Env := fun r =>
  match r with
  | Req.deleteOrg _ => RemoteResult.resp ⟨404, Body.empty, ""⟩
  | _ => RemoteResult.netfail

/-- A concrete remote in which organization deletion returns 500. -/
def envDel500 : Env := fun r =>
  match r with
  | Req.deleteOrg _ => RemoteResult.resp ⟨500, Body.empty, "boom"⟩
  | _ => RemoteResult.netfail

/-- A concrete remote in which the organization lookup itself errors with
500 while the create call succeeds. -/
def envLookup500 : Env := fun r =>
  match r with
  | Req.getOrgByName _ => RemoteResult.resp ⟨500, Body.empty, "down"⟩
  | Req.postOrg _ => RemoteResult.resp ⟨200, Body.orgId 3, ""⟩
  | _ => RemoteResult.netfail

/-- A concrete remote where service-account creation is unreachable but
service-account deletion is answered with status 500. -/
def envSAMixed : Env := fun r =>
  match r with
  | Req.deleteServiceAccount _ _ =>
      RemoteResult.resp ⟨500, Body.empty, "boom"⟩
  | _ => RemoteResult.netfail

/-- Helper: the name field of the Prometheus payload. -/
theorem prometheusDS_name : prometheusDS.name = "Prometheus" := rfl

/-- Helper: the name field of the Loki payload. -/
theorem lokiDS_name (p : String) : (lokiDS p).name = "Loki" := rfl

/-- Helper: the name field of the Tempo payload. -/
theorem tempoDS_name : tempoDS.name = "Tempo" := rfl

/-- Helper: create_organization on a lookup that does not resolve (status
other than 200) followed by a successful create returns the new id after
exactly one lookup and one create call. -/
theorem create_organization_ok (env : Env) (svc : GrafanaService)
    (name : String) (rc : HResp) (stp : Nat) (txp : String) (i : Int)
    (hc : env (Req.getOrgByName name) = RemoteResult.resp rc)
    (hcne : rc.status ≠ 200)
    (hp : env (Req.postOrg name) = RemoteResult.resp ⟨stp, Body.orgId i, txp⟩)
    (hstp : stp = 200 ∨ stp = 201) :
    create_organization env svc name =
      (Except.ok i, [Req.getOrgByName name, Req.postOrg name]) := by
  rcases hstp with rfl | rfl <;> simp [create_organization, hc, hp, hcne]

/-- Helper: add_datasources with all three creations answered by a
tolerated status (200, 201 or the 409 conflict) succeeds and posts the
three datasources in source order. -/
theorem add_datasources_ok (env : Env) (svc : GrafanaService) (orgId : Int)
    (name : String) (r1 r2 r3 : HResp)
    (h1 : env (Req.postDatasource orgId prometheusDS) = RemoteResult.resp r1)
    (h2 : env (Req.postDatasource orgId (lokiDS name)) = RemoteResult.resp r2)
    (h3 : env (Req.postDatasource orgId tempoDS) = RemoteResult.resp r3)
    (t1 : r1.status = 200 ∨ r1.status = 201 ∨ r1.status = 409)
    (t2 : r2.status = 200 ∨ r2.status = 201 ∨ r2.status = 409)
    (t3 : r3.status = 200 ∨ r3.status = 201 ∨ r3.status = 409) :
    add_datasources env svc orgId name =
      (Except.ok (),
       [Req.postDatasource orgId prometheusDS,
        Req.postDatasource orgId (lokiDS name),
        Req.postDatasource orgId tempoDS]) := by
  rcases t1 with a | a | a <;> rcases t2 with b | b | b <;>
    rcases t3 with c | c | c <;>
    simp [add_datasources, datasources, add_ds_loop, h1, h2, h3, a, b, c]

/-- Helper: create_folder on a response that is neither a success nor the
412 conflict raises the folder GrafanaError after its single call. -/
theorem create_folder_fail (env : Env) (svc : GrafanaService) (orgId : Int)
    (projectName : String) (r : HResp)
    (h : env (Req.postFolder orgId projectName
              (String.mk (folderUid projectName.data))) = RemoteResult.resp r)
    (hne : r.status ≠ 200 ∧ r.status ≠ 201 ∧ r.status ≠ 412) :
    create_folder env svc orgId projectName =
      (Except.error (PyErr.grafana (GMsg.createFolderFailed r.text)),
       [Req.postFolder orgId projectName
          (String.mk (folderUid projectName.data))]) := by
  obtain ⟨a, b, c⟩ := hne
  simp only [create_folder, h]
  rw [if_neg (by simp [a, b, c])]

/-- Claim C1, counterexample: at a concrete input where the contact-point
configuration fails (the Alertmanager-configuration call, which is the
call that creates the Telegram contact point, returns 500), the alerting
call raises the Alertmanager-configuration GrafanaError, but no temporary
service account is ever created and none is deleted: the service-account
deletion count of the trace is 0, not the 1 the claim requires. -/
theorem C1_counterexample :
    (setup_alerting envAMFail svcA 7 "bt" "42").1 =
      Except.error (PyErr.grafana (GMsg.alertmanagerConfigFailed "boom")) ∧
    ¬ (((setup_alerting envAMFail svcA 7 "bt" "42").2.countP
          Req.isDeleteSA) = 1) ∧
    ((setup_alerting envAMFail svcA 7 "bt" "42").2.countP
        Req.isPostSA) = 0 := by
  decide

/-- Claim C1, amended: setup_alerting never touches a service account.
For every remote whatsoever — normal return, failing status or
connectivity failure — its trace is exactly the one
Alertmanager-configuration POST under operator credentials with the
org-scope header, and so contains no service-account creation or
deletion on any exit path.  On a success status it returns normally, a
non-success status fails with the GrafanaError that identifies the
Alertmanager-configuration stage, and a connectivity failure fails with
the stable connectivity GrafanaError. -/
theorem C1_alerting_single_call_no_service_account
    (env env2 env3 : Env) (svc : GrafanaService) (orgId : Int)
    (botToken chatId : String) (r r3 : HResp)
    (h : env (amReq orgId botToken chatId) = RemoteResult.resp r)
    (hfail : r.status ≠ 200 ∧ r.status ≠ 201 ∧ r.status ≠ 202)
    (h2 : env2 (amReq orgId botToken chatId) = RemoteResult.netfail)
    (h3 : env3 (amReq orgId botToken chatId) = RemoteResult.resp r3)
    (hok : r3.status = 200 ∨ r3.status = 201 ∨ r3.status = 202) :
    (∀ e : Env, (setup_alerting e svc orgId botToken chatId).2 =
       [amReq orgId botToken chatId]) ∧
    (∀ e : Env,
       ((setup_alerting e svc orgId botToken chatId).2.countP
           Req.isPostSA) = 0 ∧
       ((setup_alerting e svc orgId botToken chatId).2.countP
           Req.isDeleteSA) = 0) ∧
    setup_alerting env3 svc orgId botToken chatId =
      (Except.ok (), [amReq orgId botToken chatId]) ∧
    setup_alerting env svc orgId botToken chatId =
      (Except.error (PyErr.grafana (GMsg.alertmanagerConfigFailed r.text)),
       [amReq orgId botToken chatId]) ∧
    setup_alerting env2 svc orgId botToken chatId =
      (Except.error (PyErr.grafana (GMsg.connectivity svc.base_url)),
       [amReq orgId botToken chatId]) := by
  obtain ⟨h200, h201, h202⟩ := hfail
  have huniv : ∀ e : Env, (setup_alerting e svc orgId botToken chatId).2 =
      [amReq orgId botToken chatId] := by
    intro e
    cases he : e (amReq orgId botToken chatId) with
    | netfail => simp [setup_alerting, he]
    | resp rr =>
        by_cases hs : rr.status = 200 ∨ rr.status = 201 ∨ rr.status = 202
        · simp [setup_alerting, he, hs]
        · simp [setup_alerting, he, hs]
  refine ⟨huniv, ?_, ?_, ?_, ?_⟩
  · intro e
    constructor <;> rw [huniv e] <;> simp [amReq, Req.isPostSA, Req.isDeleteSA]
  · simp only [setup_alerting, h3]
    rw [if_pos hok]
  · simp only [setup_alerting, h]
    rw [if_neg (by simp [h200, h201, h202])]
  · simp only [setup_alerting, h2]

/-- Claim C1, witness for the amended theorem at concrete inputs covering
the success, failing-status and connectivity exits. -/
theorem C1_witness :
    (∀ e : Env, (setup_alerting e svcA 7 "bt" "42").2 =
       [amReq 7 "bt" "42"]) ∧
    (∀ e : Env,
       ((setup_alerting e svcA 7 "bt" "42").2.countP Req.isPostSA) = 0 ∧
       ((setup_alerting e svcA 7 "bt" "42").2.countP Req.isDeleteSA) = 0) ∧
    setup_alerting envAllOk svcA 7 "bt" "42" =
      (Except.ok (), [amReq 7 "bt" "42"]) ∧
    setup_alerting envAMFail svcA 7 "bt" "42" =
      (Except.error (PyErr.grafana (GMsg.alertmanagerConfigFailed "boom")),
       [amReq 7 "bt" "42"]) ∧
    setup_alerting envNetfail svcA 7 "bt" "42" =
      (Except.error (PyErr.grafana (GMsg.connectivity svcA.base_url)),
       [amReq 7 "bt" "42"]) :=
  C1_alerting_single_call_no_service_account envAMFail envNetfail envAllOk
    svcA 7 "bt" "42" ⟨500, Body.empty, "boom"⟩ ⟨202, Body.empty, ""⟩
    rfl (by decide) rfl rfl (Or.inr (Or.inr rfl))

/-- Claim C2: with every remote call succeeding, cmd_create_project runs
organization creation, the three datasources and the folder in order, but
then raises AttributeError because the handler calls
grafana.create_telegram_contact_point, which GrafanaService does not
define; the workflow ends failed at stage FolderReady and never reaches
AlertingConfigured, contradicting the claim. -/
theorem C2_create_project_attribute_error :
    cmd_create_project envAllOk svcA "Acme" "12345" "bt" =
      (Except.error (PyErr.attrError "create_telegram_contact_point"),
       [Req.getOrgByName "Acme", Req.postOrg "Acme",
        Req.postDatasource 1 prometheusDS,
        Req.postDatasource 1 (lokiDS "Acme"),
        Req.postDatasource 1 tempoDS,
        Req.postFolder 1 "Acme" "acme"],
       Stage.FolderReady) ∧
    (cmd_create_project envAllOk svcA "Acme" "12345" "bt").2.2 ≠
      Stage.AlertingConfigured := by
  decide

/-- Helper: whatever the remote answers, create_organization issues the
lookup alone or the lookup followed by the create call. -/
theorem create_organization_trace_shape (env : Env) (svc : GrafanaService)
    (name : String) :
    (create_organization env svc name).2 = [Req.getOrgByName name] ∨
    (create_organization env svc name).2 =
      [Req.getOrgByName name, Req.postOrg name] := by
  cases hc : env (Req.getOrgByName name) with
  | netfail => left; simp [create_organization, hc]
  | resp c =>
      by_cases h : c.status = 200
      · left; simp [create_organization, hc, h]
      · cases hp : env (Req.postOrg name) with
        | netfail => right; simp [create_organization, hc, h, hp]
        | resp r =>
            by_cases hs : r.status = 200 ∨ r.status = 201
            · right
              cases hb : r.body <;>
                simp [create_organization, hc, h, hp, hs, hb]
            · right; simp [create_organization, hc, h, hp, hs]

/-- Helper: no run of create_organization issues a deletion request. -/
theorem create_organization_no_deletes (env : Env) (svc : GrafanaService)
    (name : String) :
    ((create_organization env svc name).2.countP Req.isDeleteOrg) = 0 ∧
    ((create_organization env svc name).2.countP Req.isDeleteSA) = 0 := by
  rcases create_organization_trace_shape env svc name with h | h <;>
    refine ⟨?_, ?_⟩ <;> rw [h] <;> simp [Req.isDeleteOrg, Req.isDeleteSA]

/-- Helper: no run of the datasource loop issues a deletion request. -/
theorem add_ds_loop_no_deletes (env : Env) (orgId : Int)
    (l : List Datasource) :
    ((add_ds_loop env orgId l).2.countP Req.isDeleteOrg) = 0 ∧
    ((add_ds_loop env orgId l).2.countP Req.isDeleteSA) = 0 := by
  induction l with
  | nil => simp [add_ds_loop]
  | cons d rest ih =>
      cases hr : env (Req.postDatasource orgId d) with
      | netfail =>
          simp [add_ds_loop, hr, Req.isDeleteOrg, Req.isDeleteSA]
      | resp r =>
          by_cases hs : r.status = 200 ∨ r.status = 201 ∨ r.status = 409
          · simp [add_ds_loop, hr, hs, Req.isDeleteOrg, Req.isDeleteSA,
              ih.1, ih.2]
          · simp [add_ds_loop, hr, hs, Req.isDeleteOrg, Req.isDeleteSA]

/-- Helper: the try/except wrapper of add_datasources leaves the loop
trace unchanged. -/
theorem add_datasources_trace (env : Env) (svc : GrafanaService)
    (orgId : Int) (n : String) :
    (add_datasources env svc orgId n).2 =
      (add_ds_loop env orgId (datasources n)).2 := by
  unfold add_datasources
  cases h : (add_ds_loop env orgId (datasources n)).1 with
  | ok a => simp [h]
  | error e => cases e <;> simp [h]

/-- Helper: whatever the remote answers, create_folder issues exactly its
one folder-creation call. -/
theorem create_folder_trace (env : Env) (svc : GrafanaService)
    (orgId : Int) (n : String) :
    (create_folder env svc orgId n).2 =
      [Req.postFolder orgId n (String.mk (folderUid n.data))] := by
  cases h : env (Req.postFolder orgId n (String.mk (folderUid n.data))) with
  | netfail => simp [create_folder, h]
  | resp r =>
      by_cases hs : r.status = 200 ∨ r.status = 201 ∨ r.status = 412
      · simp [create_folder, h, hs]
      · simp [create_folder, h, hs]

/-- Helper: no run of cmd_create_project, failing at any step or not,
ever issues an organization-deletion or service-account-deletion request:
the effects of the completed steps are always left in place. -/
theorem cmd_create_project_no_rollback (env : Env) (svc : GrafanaService)
    (n c b : String) :
    ((cmd_create_project env svc n c b).2.1.countP Req.isDeleteOrg) = 0 ∧
    ((cmd_create_project env svc n c b).2.1.countP Req.isDeleteSA) = 0 := by
  have ho := create_organization_no_deletes env svc n
  cases horg : (create_organization env svc n).1 with
  | error e =>
      have htr : (cmd_create_project env svc n c b).2.1 =
          (create_organization env svc n).2 := by
        simp [cmd_create_project, horg]
      rw [htr]
      exact ho
  | ok i =>
      have hd0 := add_ds_loop_no_deletes env i (datasources n)
      have hdt := add_datasources_trace env svc i n
      have hd : ((add_datasources env svc i n).2.countP Req.isDeleteOrg)
            = 0 ∧
          ((add_datasources env svc i n).2.countP Req.isDeleteSA) = 0 := by
        rw [hdt]
        exact hd0
      cases hds : (add_datasources env svc i n).1 with
      | error e =>
          have htr : (cmd_create_project env svc n c b).2.1 =
              (create_organization env svc n).2 ++
                (add_datasources env svc i n).2 := by
            simp [cmd_create_project, horg, hds]
          rw [htr]
          constructor <;>
            simp [List.countP_append, ho.1, ho.2, hd.1, hd.2]
      | ok u =>
          cases u
          have hft := create_folder_trace env svc i n
          have hf : ((create_folder env svc i n).2.countP Req.isDeleteOrg)
                = 0 ∧
              ((create_folder env svc i n).2.countP Req.isDeleteSA) = 0 := by
            rw [hft]
            constructor <;> simp [Req.isDeleteOrg, Req.isDeleteSA]
          cases hfl : (create_folder env svc i n).1 with
          | error e =>
              have htr : (cmd_create_project env svc n c b).2.1 =
                  (create_organization env svc n).2 ++
                    (add_datasources env svc i n).2 ++
                    (create_folder env svc i n).2 := by
                simp [cmd_create_project, horg, hds, hfl]
              rw [htr]
              constructor <;>
                simp [List.countP_append, ho.1, ho.2, hd.1, hd.2, hf.1,
                  hf.2]
          | ok u2 =>
              cases u2
              have htr : (cmd_create_project env svc n c b).2.1 =
                  (create_organization env svc n).2 ++
                    (add_datasources env svc i n).2 ++
                    (create_folder env svc i n).2 := by
                simp [cmd_create_project, horg, hds, hfl]
              rw [htr]
              constructor <;>
                simp [List.countP_append, ho.1, ho.2, hd.1, hd.2, hf.1,
                  hf.2]

/-- Claim C3: for every run of cmd_create_project, the trace never holds
an organization-deletion or service-account-deletion request (the effects
of completed steps are left in place on every run); if step k is the
first to fail — organization creation (with any error: connectivity,
already-exists, bad status or malformed body), datasource provisioning,
folder creation, or the alerting step (which raises AttributeError) — the
run stops there: its error is surfaced, the trace is exactly the traces
of steps 1..k, the later steps contribute nothing, and the recorded stage
is the last completed one.  In particular, a folder call answered with a
non-success, non-412 status makes the folder step fail with the
GrafanaError identifying the folder stage. -/
theorem C3_first_failure_stops_no_rollback
    (env : Env) (svc : GrafanaService) (name chatId botToken : String)
    (i : Int) (e : PyErr) (rf : HResp) :
    ((cmd_create_project env svc name chatId botToken).2.1.countP
        Req.isDeleteOrg) = 0 ∧
    ((cmd_create_project env svc name chatId botToken).2.1.countP
        Req.isDeleteSA) = 0 ∧
    ((create_organization env svc name).1 = Except.error e →
      cmd_create_project env svc name chatId botToken =
        (Except.error e, (create_organization env svc name).2,
         Stage.Start)) ∧
    ((create_organization env svc name).1 = Except.ok i →
     (add_datasources env svc i name).1 = Except.error e →
      cmd_create_project env svc name chatId botToken =
        (Except.error e,
         (create_organization env svc name).2 ++
           (add_datasources env svc i name).2,
         Stage.OrgCreated)) ∧
    ((create_organization env svc name).1 = Except.ok i →
     (add_datasources env svc i name).1 = Except.ok () →
     (create_folder env svc i name).1 = Except.error e →
      cmd_create_project env svc name chatId botToken =
        (Except.error e,
         (create_organization env svc name).2 ++
           (add_datasources env svc i name).2 ++
           (create_folder env svc i name).2,
         Stage.DatasourcesProvisioned)) ∧
    ((create_organization env svc name).1 = Except.ok i →
     (add_datasources env svc i name).1 = Except.ok () →
     (create_folder env svc i name).1 = Except.ok () →
      cmd_create_project env svc name chatId botToken =
        (Except.error (PyErr.attrError "create_telegram_contact_point"),
         (create_organization env svc name).2 ++
           (add_datasources env svc i name).2 ++
           (create_folder env svc i name).2,
         Stage.FolderReady)) ∧
    (env (Req.postFolder i name (String.mk (folderUid name.data))) =
        RemoteResult.resp rf →
     rf.status ≠ 200 → rf.status ≠ 201 → rf.status ≠ 412 →
     (create_folder env svc i name).1 =
       Except.error (PyErr.grafana (GMsg.createFolderFailed rf.text))) := by
  obtain ⟨hro, hrs⟩ := cmd_create_project_no_rollback env svc name chatId
    botToken
  refine ⟨hro, hrs, ?_, ?_, ?_, ?_, ?_⟩
  · intro h1
    simp [cmd_create_project, h1]
  · intro h1 h2
    simp [cmd_create_project, h1, h2]
  · intro h1 h2 h3
    simp [cmd_create_project, h1, h2, h3]
  · intro h1 h2 h3
    simp [cmd_create_project, h1, h2, h3]
  · intro hrf h200 h201 h412
    have hfl := create_folder_fail env svc i name rf hrf ⟨h200, h201, h412⟩
    rw [hfl]

/-- Claim C3, witness at a concrete remote where the organization and
datasource steps succeed and the folder call returns 500: the run stops
at the folder stage with the folder GrafanaError and no deletion request
was issued. -/
theorem C3_witness :
    ((cmd_create_project envFolderFail svcA "Acme" "12345" "bt").2.1.countP
        Req.isDeleteOrg) = 0 ∧
    ((cmd_create_project envFolderFail svcA "Acme" "12345" "bt").2.1.countP
        Req.isDeleteSA) = 0 ∧
    ((create_organization envFolderFail svcA "Acme").1 =
        Except.error (PyErr.grafana (GMsg.createFolderFailed "boom")) →
      cmd_create_project envFolderFail svcA "Acme" "12345" "bt" =
        (Except.error (PyErr.grafana (GMsg.createFolderFailed "boom")),
         (create_organization envFolderFail svcA "Acme").2,
         Stage.Start)) ∧
    ((create_organization envFolderFail svcA "Acme").1 = Except.ok 5 →
     (add_datasources envFolderFail svcA 5 "Acme").1 =
        Except.error (PyErr.grafana (GMsg.createFolderFailed "boom")) →
      cmd_create_project envFolderFail svcA "Acme" "12345" "bt" =
        (Except.error (PyErr.grafana (GMsg.createFolderFailed "boom")),
         (create_organization envFolderFail svcA "Acme").2 ++
           (add_datasources envFolderFail svcA 5 "Acme").2,
         Stage.OrgCreated)) ∧
    ((create_organization envFolderFail svcA "Acme").1 = Except.ok 5 →
     (add_datasources envFolderFail svcA 5 "Acme").1 = Except.ok () →
     (create_folder envFolderFail svcA 5 "Acme").1 =
        Except.error (PyErr.grafana (GMsg.createFolderFailed "boom")) →
      cmd_create_project envFolderFail svcA "Acme" "12345" "bt" =
        (Except.error (PyErr.grafana (GMsg.createFolderFailed "boom")),
         (create_organization envFolderFail svcA "Acme").2 ++
           (add_datasources envFolderFail svcA 5 "Acme").2 ++
           (create_folder envFolderFail svcA 5 "Acme").2,
         Stage.DatasourcesProvisioned)) ∧
    ((create_organization envFolderFail svcA "Acme").1 = Except.ok 5 →
     (add_datasources envFolderFail svcA 5 "Acme").1 = Except.ok () →
     (create_folder envFolderFail svcA 5 "Acme").1 = Except.ok () →
      cmd_create_project envFolderFail svcA "Acme" "12345" "bt" =
        (Except.error (PyErr.attrError "create_telegram_contact_point"),
         (create_organization envFolderFail svcA "Acme").2 ++
           (add_datasources envFolderFail svcA 5 "Acme").2 ++
           (create_folder envFolderFail svcA 5 "Acme").2,
         Stage.FolderReady)) ∧
    (envFolderFail (Req.postFolder 5 "Acme"
        (String.mk (folderUid "Acme".data))) =
        RemoteResult.resp ⟨500, Body.empty, "boom"⟩ →
     (500 : Nat) ≠ 200 → (500 : Nat) ≠ 201 → (500 : Nat) ≠ 412 →
     (create_folder envFolderFail svcA 5 "Acme").1 =
       Except.error (PyErr.grafana (GMsg.createFolderFailed "boom"))) :=
  C3_first_failure_stops_no_rollback envFolderFail svcA "Acme" "12345"
    "bt" 5 (PyErr.grafana (GMsg.createFolderFailed "boom"))
    ⟨500, Body.empty, "boom"⟩

/-- Claim C4: the folder uid is a pure function of the project name that
lowers the characters, turns spaces into hyphens and truncates to 40
characters: "My Project" maps to "my-project", every 60-character name
maps to exactly 40 characters, and equal inputs give equal uids. -/
theorem C4_folder_uid (s t : List Char) (h60 : s.length = 60)
    (hst : s = t) :
    folderUid ("My Project".data) = ("my-project".data) ∧
    (folderUid s).length = 40 ∧
    folderUid s = folderUid t := by
  refine ⟨by decide, ?_, by rw [hst]⟩
  simp [folderUid, pyReplaceChar, pyLower, h60]

/-- Claim C4, witness at the 60-character name made of sixty letters a. -/
theorem C4_witness :
    folderUid ("My Project".data) = ("my-project".data) ∧
    (folderUid (List.replicate 60 'a')).length = 40 ∧
    folderUid (List.replicate 60 'a') = folderUid (List.replicate 60 'a') :=
  C4_folder_uid (List.replicate 60 'a') (List.replicate 60 'a')
    (by decide) rfl

/-- Claim C5: add_datasources posts Prometheus, Loki, Tempo in that fixed
order; any mix of 200, 201 and 409 (conflict) statuses succeeds with all
three posted, so a conflict neither aborts nor raises; a non-tolerated
status on the first, second or third datasource stops there, skips the
remaining datasources, and raises the GrafanaError naming exactly the
datasource that failed. -/
theorem C5_datasource_order_conflict_abort
    (env : Env) (svc : GrafanaService) (orgId : Int) (name : String)
    (r1 r2 r3 : HResp)
    (h1 : env (Req.postDatasource orgId prometheusDS) = RemoteResult.resp r1)
    (h2 : env (Req.postDatasource orgId (lokiDS name)) = RemoteResult.resp r2)
    (h3 : env (Req.postDatasource orgId tempoDS) = RemoteResult.resp r3) :
    ((r1.status = 200 ∨ r1.status = 201 ∨ r1.status = 409) →
     (r2.status = 200 ∨ r2.status = 201 ∨ r2.status = 409) →
     (r3.status = 200 ∨ r3.status = 201 ∨ r3.status = 409) →
     add_datasources env svc orgId name =
       (Except.ok (),
        [Req.postDatasource orgId prometheusDS,
         Req.postDatasource orgId (lokiDS name),
         Req.postDatasource orgId tempoDS])) ∧
    (¬ (r1.status = 200 ∨ r1.status = 201 ∨ r1.status = 409) →
     add_datasources env svc orgId name =
       (Except.error
          (PyErr.grafana (GMsg.addDatasourceFailed "Prometheus" r1.text)),
        [Req.postDatasource orgId prometheusDS])) ∧
    ((r1.status = 200 ∨ r1.status = 201 ∨ r1.status = 409) →
     ¬ (r2.status = 200 ∨ r2.status = 201 ∨ r2.status = 409) →
     add_datasources env svc orgId name =
       (Except.error
          (PyErr.grafana (GMsg.addDatasourceFailed "Loki" r2.text)),
        [Req.postDatasource orgId prometheusDS,
         Req.postDatasource orgId (lokiDS name)])) ∧
    ((r1.status = 200 ∨ r1.status = 201 ∨ r1.status = 409) →
     (r2.status = 200 ∨ r2.status = 201 ∨ r2.status = 409) →
     ¬ (r3.status = 200 ∨ r3.status = 201 ∨ r3.status = 409) →
     add_datasources env svc orgId name =
       (Except.error
          (PyErr.grafana (GMsg.addDatasourceFailed "Tempo" r3.text)),
        [Req.postDatasource orgId prometheusDS,
         Req.postDatasource orgId (lokiDS name),
         Req.postDatasource orgId tempoDS])) := by
  refine ⟨?_, ?_, ?_, ?_⟩
  · intro t1 t2 t3
    exact add_datasources_ok env svc orgId name r1 r2 r3 h1 h2 h3 t1 t2 t3
  · intro hn1
    simp [add_datasources, datasources, add_ds_loop, h1, hn1,
      prometheusDS_name]
  · intro t1 hn2
    rcases t1 with a | a | a <;>
      simp [add_datasources, datasources, add_ds_loop, h1, h2, a, hn2,
        lokiDS_name]
  · intro t1 t2 hn3
    rcases t1 with a | a | a <;> rcases t2 with b | b | b <;>
      simp [add_datasources, datasources, add_ds_loop, h1, h2, h3, a, b,
        hn3, tempoDS_name]

/-- Claim C5, witness at a concrete remote where Loki already exists (409)
and the others return 200: all three datasources are posted in order and
the call succeeds. -/
theorem C5_witness :
    add_datasources envDsMixed svcA 3 "Acme" =
      (Except.ok (),
       [Req.postDatasource 3 prometheusDS,
        Req.postDatasource 3 (lokiDS "Acme"),
        Req.postDatasource 3 tempoDS]) :=
  (C5_datasource_order_conflict_abort envDsMixed svcA 3 "Acme"
      ⟨200, Body.empty, ""⟩ ⟨409, Body.empty, ""⟩ ⟨200, Body.empty, ""⟩
      rfl rfl rfl).1
    (Or.inl rfl) (Or.inr (Or.inr rfl)) (Or.inl rfl)

/-- Claim C6: when the organization name is already resolvable (the lookup
returns 200), create_organization fails with the already-exists
GrafanaError and its trace holds only the lookup — no creation call is
issued; when the lookup does not resolve and the create call succeeds,
the trace holds the lookup followed by exactly one creation call and the
new numeric id from the response body is returned. -/
theorem C6_create_organization_guard
    (env env2 : Env) (svc : GrafanaService) (name : String)
    (rc r2c : HResp) (stp : Nat) (txp : String) (i : Int)
    (hc : env (Req.getOrgByName name) = RemoteResult.resp rc)
    (hc200 : rc.status = 200)
    (h2c : env2 (Req.getOrgByName name) = RemoteResult.resp r2c)
    (h2cne : r2c.status ≠ 200)
    (h2p : env2 (Req.postOrg name) =
      RemoteResult.resp ⟨stp, Body.orgId i, txp⟩)
    (hstp : stp = 200 ∨ stp = 201) :
    create_organization env svc name =
      (Except.error (PyErr.grafana (GMsg.alreadyExists name)),
       [Req.getOrgByName name]) ∧
    create_organization env2 svc name =
      (Except.ok i, [Req.getOrgByName name, Req.postOrg name]) := by
  constructor
  · simp [create_organization, hc, hc200]
  · exact create_organization_ok env2 svc name r2c stp txp i h2c h2cne
      h2p hstp

/-- Claim C6, witness: a remote where the name resolves (already exists)
and one where it does not and creation returns id 1. -/
theorem C6_witness :
    create_organization envOrgExists svcA "Acme" =
      (Except.error (PyErr.grafana (GMsg.alreadyExists "Acme")),
       [Req.getOrgByName "Acme"]) ∧
    create_organization envAllOk svcA "Acme" =
      (Except.ok 1, [Req.getOrgByName "Acme", Req.postOrg "Acme"]) :=
  C6_create_organization_guard envOrgExists envAllOk svcA "Acme"
    ⟨200, Body.org ⟨1, "Acme"⟩, ""⟩ ⟨404, Body.empty, ""⟩ 200 "" 1
    rfl rfl rfl (by decide) rfl (Or.inl rfl)

/-- Claim C7: a successful listing returns the parsed organizations with
every organization named "Main Org." filtered out, so the result never
contains the built-in default organization, however many organizations
the remote reports. -/
theorem C7_list_excludes_default
    (env : Env) (svc : GrafanaService) (os : List Org) (stl : Nat)
    (txl : String)
    (h : env Req.getOrgs = RemoteResult.resp ⟨stl, Body.orgs os, txl⟩)
    (hst : stl = 200) :
    list_organizations env svc =
      (Except.ok (os.filter fun o => o.name ≠ "Main Org."),
       [Req.getOrgs]) ∧
    ∀ o ∈ os.filter (fun o => o.name ≠ "Main Org."),
      o.name ≠ "Main Org." := by
  subst hst
  constructor
  · simp [list_organizations, h]
  · intro o ho
    have hmem := List.mem_filter.mp ho
    simpa using hmem.2

/-- Claim C7, witness: a remote listing that contains the default
organization and one project organization; the default one is gone from
the result. -/
theorem C7_witness :
    list_organizations envList svcA =
      (Except.ok (([⟨1, "Main Org."⟩, ⟨2, "Acme"⟩] : List Org).filter
         fun o => o.name ≠ "Main Org."),
       [Req.getOrgs]) ∧
    ∀ o ∈ ([⟨1, "Main Org."⟩, ⟨2, "Acme"⟩] : List Org).filter
        (fun o => o.name ≠ "Main Org."),
      o.name ≠ "Main Org." :=
  C7_list_excludes_default envList svcA [⟨1, "Main Org."⟩, ⟨2, "Acme"⟩]
    200 "" rfl rfl

/-- Claim C8: deleting an organization whose id the remote reports as
not found (404) succeeds rather than raising; only a status that is
neither 200 nor 404 raises the deletion GrafanaError. -/
theorem C8_delete_not_found_is_success
    (env env2 : Env) (svc : GrafanaService) (orgId : Int) (r r2 : HResp)
    (h : env (Req.deleteOrg orgId) = RemoteResult.resp r)
    (h404 : r.status = 404)
    (h2 : env2 (Req.deleteOrg orgId) = RemoteResult.resp r2)
    (h2ne : r2.status ≠ 200 ∧ r2.status ≠ 404) :
    delete_organization env svc orgId =
      (Except.ok (), [Req.deleteOrg orgId]) ∧
    delete_organization env2 svc orgId =
      (Except.error (PyErr.grafana (GMsg.deleteOrgFailed orgId r2.text)),
       [Req.deleteOrg orgId]) := by
  obtain ⟨a, b⟩ := h2ne
  constructor
  · simp [delete_organization, h, h404]
  · simp only [delete_organization, h2]
    rw [if_neg (by simp [a, b])]

/-- Claim C8, witness: deletion answered 404 succeeds; deletion answered
500 raises. -/
theorem C8_witness :
    delete_organization envDel404 svcA 9 =
      (Except.ok (), [Req.deleteOrg 9]) ∧
    delete_organization envDel500 svcA 9 =
      (Except.error (PyErr.grafana (GMsg.deleteOrgFailed 9 "boom")),
       [Req.deleteOrg 9]) :=
  C8_delete_not_found_is_success envDel404 envDel500 svcA 9
    ⟨404, Body.empty, ""⟩ ⟨500, Body.empty, "boom"⟩ rfl rfl rfl (by decide)

/-- Claim C9: the pre-create existence check of create_organization blocks
creation only on a lookup status of exactly 200; for any other lookup
status (404, but equally 500 or any remote error status) the lookup does
not raise, the create POST is still attempted (the trace is exactly the
lookup followed by the create call), and the result is never the
already-exists error. -/
theorem C9_existence_check_only_blocks_200
    (env : Env) (svc : GrafanaService) (name : String) (rc : HResp)
    (hc : env (Req.getOrgByName name) = RemoteResult.resp rc)
    (hne : rc.status ≠ 200) :
    (create_organization env svc name).2 =
      [Req.getOrgByName name, Req.postOrg name] ∧
    (create_organization env svc name).1 ≠
      Except.error (PyErr.grafana (GMsg.alreadyExists name)) := by
  cases h2 : env (Req.postOrg name) with
  | netfail =>
      have hrun : create_organization env svc name =
          (Except.error (PyErr.grafana (GMsg.connectivity svc.base_url)),
           [Req.getOrgByName name, Req.postOrg name]) := by
        simp [create_organization, hc, hne, h2]
      rw [hrun]
      exact ⟨rfl, by simp⟩
  | resp r =>
      by_cases hst : r.status = 200 ∨ r.status = 201
      · cases hb : r.body with
        | orgId i =>
            have hrun : create_organization env svc name =
                (Except.ok i,
                 [Req.getOrgByName name, Req.postOrg name]) := by
              simp [create_organization, hc, hne, h2, hst, hb]
            rw [hrun]
            exact ⟨rfl, by simp⟩
        | empty =>
            have hrun : create_organization env svc name =
                (Except.error PyErr.keyError,
                 [Req.getOrgByName name, Req.postOrg name]) := by
              simp [create_organization, hc, hne, h2, hst, hb]
            rw [hrun]
            exact ⟨rfl, by simp⟩
        | org o =>
            have hrun : create_organization env svc name =
                (Except.error PyErr.keyError,
                 [Req.getOrgByName name, Req.postOrg name]) := by
              simp [create_organization, hc, hne, h2, hst, hb]
            rw [hrun]
            exact ⟨rfl, by simp⟩
        | orgs os =>
            have hrun : create_organization env svc name =
                (Except.error PyErr.keyError,
                 [Req.getOrgByName name, Req.postOrg name]) := by
              simp [create_organization, hc, hne, h2, hst, hb]
            rw [hrun]
            exact ⟨rfl, by simp⟩
        | saId i =>
            have hrun : create_organization env svc name =
                (Except.error PyErr.keyError,
                 [Req.getOrgByName name, Req.postOrg name]) := by
              simp [create_organization, hc, hne, h2, hst, hb]
            rw [hrun]
            exact ⟨rfl, by simp⟩
        | tokenKey k =>
            have hrun : create_organization env svc name =
                (Except.error PyErr.keyError,
                 [Req.getOrgByName name, Req.postOrg name]) := by
              simp [create_organization, hc, hne, h2, hst, hb]
            rw [hrun]
            exact ⟨rfl, by simp⟩
      · have hrun : create_organization env svc name =
            (Except.error (PyErr.grafana (GMsg.createOrgFailed r.text)),
             [Req.getOrgByName name, Req.postOrg name]) := by
          simp [create_organization, hc, hne, h2, hst]
        rw [hrun]
        exact ⟨rfl, by simp⟩

/-- Claim C9, witness: a lookup that itself errors with 500 still leads to
the create call being attempted (and here succeeding). -/
theorem C9_witness :
    (create_organization envLookup500 svcA "Acme").2 =
      [Req.getOrgByName "Acme", Req.postOrg "Acme"] ∧
    (create_organization envLookup500 svcA "Acme").1 ≠
      Except.error (PyErr.grafana (GMsg.alreadyExists "Acme")) :=
  C9_existence_check_only_blocks_200 envLookup500 svcA "Acme"
    ⟨500, Body.empty, "down"⟩ rfl (by decide)

/-- Claim C10: the temporary-credential helpers lack the try/except and
status discipline of the public operations: a transport failure in
_create_temp_token escapes as the raw untyped transport exception, not as
the typed GrafanaError carrying the stable connectivity message; and
_delete_service_account returns success for any HTTP status whatsoever
(here an arbitrary response r), while its own transport failures likewise
escape untyped. -/
theorem C10_temp_helpers_untyped_transport
    (env env2 : Env) (svc : GrafanaService) (orgId saId : Int) (r : HResp)
    (hnet : env (Req.postServiceAccount orgId saPayload) =
      RemoteResult.netfail)
    (hdel : env (Req.deleteServiceAccount orgId saId) = RemoteResult.resp r)
    (hnet2 : env2 (Req.deleteServiceAccount orgId saId) =
      RemoteResult.netfail) :
    create_temp_token env svc orgId =
      (Except.error PyErr.transport,
       [Req.postServiceAccount orgId saPayload]) ∧
    (∀ m : GMsg, (create_temp_token env svc orgId).1 ≠
      Except.error (PyErr.grafana m)) ∧
    delete_service_account env svc orgId saId =
      (Except.ok (), [Req.deleteServiceAccount orgId saId]) ∧
    delete_service_account env2 svc orgId saId =
      (Except.error PyErr.transport,
       [Req.deleteServiceAccount orgId saId]) := by
  have h1 : create_temp_token env svc orgId =
      (Except.error PyErr.transport,
       [Req.postServiceAccount orgId saPayload]) := by
    simp [create_temp_token, hnet]
  refine ⟨h1, ?_, ?_, ?_⟩
  · intro m
    rw [h1]
    simp
  · simp [delete_service_account, hdel]
  · simp [delete_service_account, hnet2]

/-- Claim C10, witness: an unreachable remote for the service-account
creation, an arbitrary 500 answer for the deletion (still success), and
an unreachable remote for the deletion (untyped escape). -/
theorem C10_witness :
    create_temp_token envSAMixed svcA 4 =
      (Except.error PyErr.transport, [Req.postServiceAccount 4 saPayload]) ∧
    (∀ m : GMsg, (create_temp_token envSAMixed svcA 4).1 ≠
      Except.error (PyErr.grafana m)) ∧
    delete_service_account envSAMixed svcA 4 8 =
      (Except.ok (), [Req.deleteServiceAccount 4 8]) ∧
    delete_service_account envNetfail svcA 4 8 =
      (Except.error PyErr.transport, [Req.deleteServiceAccount 4 8]) :=
  C10_temp_helpers_untyped_transport envSAMixed envNetfail svcA 4 8
    ⟨500, Body.empty, "boom"⟩ rfl rfl rfl
